import Mathlib

set_option maxRecDepth 100000

/-
  Verification of the conversation engine in src/chatbox.js (Mind-health-web).

  Shallow embedding notes:
  * The four supported locales (the keys of the `translations` object and the
    options of the language `<select>`) form the closed `Language` set.
  * Moods are plain strings, exactly as in the source, which dispatches on
    mood via literal string comparison; the closed MoodLabel set is
    `moodLabelList` (the keys of every `moodLabels` object).
  * A `Turn` mirrors the message records `{ text, sender, timestamp }`.
    Timestamps (`new Date().toLocaleTimeString()` in the source) are ambient
    inputs; each operation takes the timestamp string as an argument.
  * `Math.floor(Math.random() * list.length)` produces an arbitrary index
    into the list; the random draw is modelled by a natural-number oracle `r`
    reduced modulo the list length (`randPick`), so every index the source
    can produce is reachable by some `r`.
  * JavaScript `toLowerCase` is modelled on its ASCII behaviour
    (`Char.toLower`); the Devanagari and Kannada strings in the rule tables
    are caseless, so this agrees with the source on all table entries.
  * JavaScript `trim` is modelled by `jsTrim`, dropping whitespace characters
    from both ends; `includes` by `includesStr`, substring containment.
  * A JS template literal renders an `undefined` object lookup as the string
    "undefined"; `Option.getD _ "undefined"` models that in
    `handleMoodSelection`.
-/

namespace Chatbox

inductive Language where
  | english
  | hindi
  | marathi
  | kannada
deriving DecidableEq

structure Turn where
  text : String
  sender : String
  timestamp : String
deriving DecidableEq

/- Session state of the component: the `useState` cells the engine owns.
   `inputValue` (the text box) is presentation state consumed at send time;
   it appears as the text argument of the send operation instead. -/
structure Session where
  messages : List Turn
  currentLanguage : Language
  userMood : Option String
  showMoodSelector : Bool
deriving DecidableEq

/- ---------- string primitives modelling the JS built-ins ---------- -/

/- JS String.prototype.toLowerCase, ASCII fragment. -/
def jsToLower (s : String) : String :=
  String.mk (s.toList.map Char.toLower)

/- `hasPrefixCL l k` : does char list `l` start with `k`? -/
def hasPrefixCL : List Char → List Char → Bool
  | _, [] => true
  | [], _ :: _ => false
  | a :: as, b :: bs => a == b && hasPrefixCL as bs

/- `containsCL l k` : does `k` occur contiguously inside `l`? -/
def containsCL : List Char → List Char → Bool
  | [], sub => sub.isEmpty
  | a :: as, sub => hasPrefixCL (a :: as) sub || containsCL as sub

/- JS String.prototype.includes. -/
def includesStr (s sub : String) : Bool :=
  containsCL s.toList sub.toList

def trimList (l : List Char) : List Char :=
  ((l.dropWhile Char.isWhitespace).reverse.dropWhile Char.isWhitespace).reverse

/- JS String.prototype.trim (on the common whitespace characters). -/
def jsTrim (s : String) : String :=
  String.mk (trimList s.toList)

/- ---------- the Template Store: `translations` (chatbox.js lines 4-69) ---------- -/

namespace translations

def greeting : Language → String
  | .english => "Hello! I'm here to support you. How are you feeling today? 😊"
  | .hindi => "नमस्ते! मैं आपकी सहायता के लिए यहाँ हूँ। आज आप कैसा महसूस कर रहे हैं? 😊"
  | .marathi => "नमस्कार! मी तुमच्या मदतीसाठी येथे आहे। आज तुम्ही कसे वाटत आहात? 😊"
  | .kannada => "ನಮಸ್ಕಾರ! ನಿಮ್ಮನ್ನು ಬೆಂಬಲಿಸಲು ನಾನು ಇಲ್ಲಿದ್ದೇನೆ। ಇಂದು ನೀವು ಹೇಗೆ ಅನಿಸುತ್ತಿದೆ? 😊"

/- The per-language `moodLabels` objects, transposed to be keyed by the mood
   string first; an out-of-set key resolves to `none` (JS: `undefined`). -/
def moodLabels (lang : Language) (mood : String) : Option String :=
  if mood = "happy" then
    some (match lang with
      | .english => "Happy" | .hindi => "खुश" | .marathi => "आनंदी" | .kannada => "ಸಂತೋಷ")
  else if mood = "sad" then
    some (match lang with
      | .english => "Sad" | .hindi => "उदास" | .marathi => "दुःखी" | .kannada => "ದುಃಖ")
  else if mood = "anxious" then
    some (match lang with
      | .english => "Anxious" | .hindi => "चिंतित" | .marathi => "चिंताग्रस्त" | .kannada => "ಆತಂಕ")
  else if mood = "angry" then
    some (match lang with
      | .english => "Angry" | .hindi => "गुस्सा" | .marathi => "रागावलेला" | .kannada => "ಕೋಪ")
  else if mood = "calm" then
    some (match lang with
      | .english => "Calm" | .hindi => "शांत" | .marathi => "शांत" | .kannada => "ಶಾಂತ")
  else if mood = "confused" then
    some (match lang with
      | .english => "Confused" | .hindi => "भ्रमित" | .marathi => "गोंधळलेला" | .kannada => "ಗೊಂದಲ")
  else
    none

end translations

/- The closed MoodLabel set: the keys of the moodLabels objects, in source order. -/
def moodLabelList : List String :=
  ["happy", "sad", "anxious", "angry", "calm", "confused"]

/- ---------- `mentalHealthResponses` (chatbox.js lines 72-94) ---------- -/

namespace mentalHealthResponses

def depression : Language → List String
  | .english =>
    ["I understand you're going through a tough time. Remember, it's okay to feel this way, and you're not alone. 🤗 Try taking small steps like going for a walk or talking to someone you trust.",
     "Depression can feel overwhelming, but you're stronger than you know. 💪 Consider practicing deep breathing exercises or journaling your thoughts."]
  | .hindi =>
    ["मैं समझ सकता हूँ कि आप कठिन समय से गुजर रहे हैं। याद रखें, ऐसा महसूस करना ठीक है, और आप अकेले नहीं हैं। 🤗 छोटे कदम उठाने की कोशिश करें जैसे टहलना या किसी विश्वसनीय व्यक्ति से बात करना।"]
  | .marathi =>
    ["मला समजते की तुम्ही कठीण काळातून जात आहात। लक्षात ठेवा, असे वाटणे सामान्य आहे, आणि तुम्ही एकटे नाही आहात। 🤗 लहान पावले उचलण्याचा प्रयत्न करा जसे फिरायला जाणे किंवा तुमच्या विश्वासू व्यक्तीशी बोलणे।"]
  | .kannada =>
    ["ನೀವು ಕಷ್ಟದ ಸಮಯದಲ್ಲಿದ್ದೀರಿ ಎಂದು ನನಗೆ ಅರ್ಥವಾಗುತ್ತದೆ। ನೆನಪಿಡಿ, ಹೀಗೆ ಅನಿಸುವುದು ಸಾಮಾನ್ಯ, ಮತ್ತು ನೀವು ಒಬ್ಬಂಟಿಗರಲ್ಲ। 🤗 ನಡೆಯಲು ಹೋಗುವುದು ಅಥವಾ ನಂಬಿಕೆಯ ವ್ಯಕ್ತಿಯೊಂದಿಗೆ ಮಾತನಾಡುವಂತಹ ಸಣ್ಣ ಹೆಜ್ಜೆಗಳನ್ನು ತೆಗೆದುಕೊಳ್ಳಲು ಪ್ರಯತ್ನಿಸಿ।"]

def anxiety : Language → List String
  | .english =>
    ["Anxiety can be really challenging. Try the 4-7-8 breathing technique: breathe in for 4, hold for 7, exhale for 8. 🌬️ You're going to get through this.",
     "I hear you're feeling anxious. Ground yourself by naming 5 things you can see, 4 you can touch, 3 you can hear, 2 you can smell, and 1 you can taste. 🧘‍♀️"]
  | .hindi =>
    ["चिंता वास्तव में चुनौतीपूर्ण हो सकती है। 4-7-8 सांस लेने की तकनीक आज़माएं: 4 के लिए सांस लें, 7 के लिए रोकें, 8 के लिए छोड़ें। 🌬️ आप इससे निकल जाएंगे।"]
  | .marathi =>
    ["चिंता खरोखरच आव्हानात्मक असू शकते। 4-7-8 श्वास तंत्र वापरून पहा: 4 साठी श्वास घ्या, 7 साठी धरा, 8 साठी सोडा। 🌬️ तुम्ही यातून बाहेर पडाल।"]
  | .kannada =>
    ["ಆತಂಕವು ನಿಜವಾಗಿಯೂ ಸವಾಲಿನದ್ದಾಗಿರಬಹುದು। 4-7-8 ಉಸಿರಾಟದ ತಂತ್ರವನ್ನು ಪ್ರಯತ್ನಿಸಿ: 4 ಕ್ಕೆ ಉಸಿರು ತೆಗೆದುಕೊಳ್ಳಿ, 7 ಕ್ಕೆ ಹಿಡಿದಿಟ್ಟುಕೊಳ್ಳಿ, 8 ಕ್ಕೆ ಬಿಡಿ। 🌬️ ನೀವು ಇದನ್ನು ಜಯಿಸುವಿರಿ।"]

def stress : Language → List String
  | .english =>
    ["Stress is your body's way of responding to challenges. Take a moment to pause and breathe deeply. 🌸 Consider breaking your tasks into smaller, manageable pieces.",
     "I can sense you're feeling stressed. Try progressive muscle relaxation or listen to calming music. 🎵 Remember to be kind to yourself."]
  | .hindi =>
    ["तनाव आपके शरीर का चुनौतियों का जवाब देने का तरीका है। एक पल रुकें और गहरी सांस लें। 🌸 अपने कार्यों को छोटे, प्रबंधनीय टुकड़ों में बांटने पर विचार करें।"]
  | .marathi =>
    ["तणाव हा तुमच्या शरीराचा आव्हानांना प्रतिसाद देण्याचा मार्ग आहे। एक क्षण थांबा आणि खोल श्वास घ्या। 🌸 तुमची कामे लहान, व्यवस्थापन करण्यायोग्य भागांमध्ये विभागण्याचा विचार करा।"]
  | .kannada =>
    ["ಒತ್ತಡವು ಸವಾಲುಗಳಿಗೆ ಪ್ರತಿಕ್ರಿಯಿಸುವ ನಿಮ್ಮ ದೇಹದ ವಿಧಾನವಾಗಿದೆ। ಒಂದು ಕ್ಷಣ ವಿರಾಮ ತೆಗೆದುಕೊಂಡು ಆಳವಾಗಿ ಉಸಿರಾಡಿ। 🌸 ನಿಮ್ಮ ಕಾರ್ಯಗಳನ್ನು ಸಣ್ಣ, ನಿರ್ವಹಿಸಬಹುದಾದ ಭಾಗಗಳಾಗಿ ವಿಭಜಿಸುವುದನ್ನು ಪರಿಗಣಿಸಿ।"]

end mentalHealthResponses

/- The `genericResponses` table, defined inline in generateBotResponse in the
   source (chatbox.js lines 196-201). -/
def genericResponses : Language → List String
  | .english =>
    ["I hear you. Can you tell me more about what you're experiencing? 🤗",
     "Thank you for sharing that with me. How long have you been feeling this way? 💙",
     "That sounds challenging. What do you think might help you feel better? 🌟"]
  | .hindi =>
    ["मैं आपकी बात सुन रहा हूँ। क्या आप मुझे बता सकते हैं कि आप क्या अनुभव कर रहे हैं? 🤗",
     "मेरे साथ साझा करने के लिए धन्यवाद। आप कितने समय से ऐसा महसूस कर रहे हैं? 💙"]
  | .marathi =>
    ["मी तुमचे ऐकत आहे। तुम्ही मला सांगू शकता का की तुम्ही काय अनुभवत आहात? 🤗",
     "माझ्याशी सामायिक केल्याबद्दल धन्यवाद। तुम्ही किती काळापासून असे वाटत आहे? 💙"]
  | .kannada =>
    ["ನಾನು ನಿಮ್ಮ ಮಾತು ಕೇಳುತ್ತಿದ್ದೇನೆ. ನೀವು ಏನನ್ನು ಅನುಭವಿಸುತ್ತಿದ್ದೀರಿ ಎಂದು ನನಗೆ ಹೆಚ್ಚು ಹೇಳಬಹುದೇ? 🤗",
     "ನನ್ನೊಂದಿಗೆ ಹಂಚಿಕೊಂಡಿದ್ದಕ್ಕಾಗಿ ಧನ್ಯವಾದಗಳು. ನೀವು ಎಷ್ಟು ಕಾಲದಿಂದ ಹೀಗೆ ಅನಿಸುತ್ತಿದೆ? 💙"]

/- The fixed per-language texts inlined in generateMoodResponse (lines 158-173). -/
def happyResponse : Language → String
  | .english => "That's wonderful to hear! 🌟 Keep nurturing those positive feelings. What's bringing you joy today?"
  | .hindi => "यह सुनकर बहुत अच्छा लगा! 🌟 इन सकारात्मक भावनाओं को बनाए रखें। आज आपको क्या खुशी दे रहा है?"
  | .marathi => "हे ऐकून खूप आनंद झाला! 🌟 या सकारात्मक भावनांना वाढवत रहा। आज तुम्हाला काय आनंद देत आहे?"
  | .kannada => "ಇದನ್ನು ಕೇಳಿ ತುಂಬಾ ಸಂತೋಷವಾಯಿತು! 🌟 ಈ ಧನಾತ್ಮಕ ಭಾವನೆಗಳನ್ನು ಪೋಷಿಸುತ್ತಲೇ ಇರಿ। ಇಂದು ನಿಮಗೆ ಸಂತೋಷ ತರುತ್ತಿರುವುದು ಏನು?"

def calmResponse : Language → String
  | .english => "It's great that you're feeling calm! 🧘‍♀️ This is a perfect state for reflection and mindfulness. How can I support you today?"
  | .hindi => "यह बहुत अच्छा है कि आप शांत महसूस कर रहे हैं! 🧘‍♀️ यह चिंतन और सचेतता के लिए एक आदर्श स्थिति है। आज मैं आपकी कैसे सहायता कर सकता हूँ?"
  | .marathi => "तुम्ही शांत वाटत आहात हे खूप चांगले आहे! 🧘‍♀️ ही चिंतन आणि जागरूकतेसाठी एक आदर्श स्थिती आहे। आज मी तुमची कशी मदत करू शकतो?"
  | .kannada => "ನೀವು ಶಾಂತವಾಗಿ ಅನಿಸುತ್ತಿರುವುದು ಬಹಳ ಒಳ್ಳೆಯದು! 🧘‍♀️ ಇದು ಚಿಂತನೆ ಮತ್ತು ಸಾವಧಾನತೆಗೆ ಪರಿಪೂರ್ಣ ಸ್ಥಿತಿ. ಇಂದು ನಾನು ನಿಮ್ಮನ್ನು ಹೇಗೆ ಬೆಂಬಲಿಸಬಹುದು?"

def defaultMoodResponse : Language → String
  | .english => "Thank you for sharing how you're feeling. I'm here to listen and support you. 💙 What would you like to talk about?"
  | .hindi => "आपने अपनी भावनाएं साझा करने के लिए धन्यवाद। मैं सुनने और आपका समर्थन करने के लिए यहाँ हूँ। 💙 आप किस बारे में बात करना चाहेंगे?"
  | .marathi => "तुमच्या भावना सामायिक केल्याबद्दल धन्यवाद। मी ऐकण्यासाठी आणि तुमचे समर्थन करण्यासाठी येथे आहे। 💙 तुम्हाला कशाबद्दल बोलायचे आहे?"
  | .kannada => "ನಿಮ್ಮ ಭಾವನೆಗಳನ್ನು ಹಂಚಿಕೊಂಡಿದ್ದಕ್ಕಾಗಿ ಧನ್ಯವಾದಗಳು. ನಾನು ಕೇಳಲು ಮತ್ತು ನಿಮ್ಮನ್ನು ಬೆಂಬಲಿಸಲು ಇಲ್ಲಿದ್ದೇನೆ। 💙 ನೀವು ಯಾವುದರ ಬಗ್ಗೆ ಮಾತನಾಡಲು ಬಯಸುತ್ತೀರಿ?"

/- ---------- engine operations ---------- -/

/- getMoodEmoji (lines 137-147): `emojiMap[mood] || '😐'`. -/
def emojiMap (mood : String) : Option String :=
  if mood = "happy" then some "😊"
  else if mood = "sad" then some "😢"
  else if mood = "anxious" then some "😰"
  else if mood = "angry" then some "😠"
  else if mood = "calm" then some "😌"
  else if mood = "confused" then some "😕"
  else none

def getMoodEmoji (mood : String) : String :=
  (emojiMap mood).getD "😐"

/- generateMoodResponse (lines 149-180): deterministic, always the entry at
   index 0 of the variant lists, no random draw. -/
def generateMoodResponse (currentLanguage : Language) (mood ts : String) : Turn :=
  { text :=
      if mood = "sad" then (mentalHealthResponses.depression currentLanguage).headD ""
      else if mood = "anxious" then (mentalHealthResponses.anxiety currentLanguage).headD ""
      else if mood = "angry" then (mentalHealthResponses.stress currentLanguage).headD ""
      else if mood = "happy" then happyResponse currentLanguage
      else if mood = "calm" then calmResponse currentLanguage
      else defaultMoodResponse currentLanguage,
    sender := "bot", timestamp := ts }

/- handleMoodSelection (lines 122-135). -/
def handleMoodSelection (s : Session) (mood ts : String) : Session :=
  let moodMessage : Turn :=
    { text := (translations.moodLabels s.currentLanguage mood).getD "undefined"
        ++ " " ++ getMoodEmoji mood,
      sender := "user", timestamp := ts }
  let botResponse := generateMoodResponse s.currentLanguage mood ts
  { s with userMood := some mood, showMoodSelector := false,
           messages := s.messages ++ [moodMessage, botResponse] }

/- The keyword tests of generateBotResponse (lines 186-193), named so the
   theorems can speak about them; the source writes them inline. -/
def matchesDepression (lowerMessage : String) : Bool :=
  includesStr lowerMessage "sad" || includesStr lowerMessage "depressed" ||
  includesStr lowerMessage "down" || includesStr lowerMessage "उदास" ||
  includesStr lowerMessage "दुखी" || includesStr lowerMessage "ದುಃಖ"

def matchesAnxiety (lowerMessage : String) : Bool :=
  includesStr lowerMessage "anxious" || includesStr lowerMessage "worried" ||
  includesStr lowerMessage "panic" || includesStr lowerMessage "चिंतित" ||
  includesStr lowerMessage "चिंताग्रस्त" || includesStr lowerMessage "ಆತಂಕ"

def matchesStress (lowerMessage : String) : Bool :=
  includesStr lowerMessage "stress" || includesStr lowerMessage "overwhelmed" ||
  includesStr lowerMessage "pressure" || includesStr lowerMessage "तनाव" ||
  includesStr lowerMessage "तणाव" || includesStr lowerMessage "ಒತ್ತಡ"

/- `list[Math.floor(Math.random() * list.length)]` with the random draw
   abstracted into the oracle `r`. -/
def randPick (l : List String) (r : Nat) : String :=
  l.getD (r % l.length) ""

/- generateBotResponse (lines 182-210); the source's local `lowerMessage`
   binding is inlined. -/
def generateBotResponse (currentLanguage : Language) (userMessage : String)
    (r : Nat) (ts : String) : Turn :=
  { text :=
      if matchesDepression (jsToLower userMessage) then
        randPick (mentalHealthResponses.depression currentLanguage) r
      else if matchesAnxiety (jsToLower userMessage) then
        randPick (mentalHealthResponses.anxiety currentLanguage) r
      else if matchesStress (jsToLower userMessage) then
        randPick (mentalHealthResponses.stress currentLanguage) r
      else
        randPick (genericResponses currentLanguage) r,
    sender := "bot", timestamp := ts }

/- handleSendMessage (lines 212-225); `inputValue` is the text in the box at
   the moment of the send event. -/
def handleSendMessage (s : Session) (inputValue ts : String) (r : Nat) : Session :=
  if jsTrim inputValue = "" then s
  else
    let userMessage : Turn := { text := inputValue, sender := "user", timestamp := ts }
    let botResponse := generateBotResponse s.currentLanguage inputValue r ts
    { s with messages := s.messages ++ [userMessage, botResponse] }

/- The language-select onChange handler (lines 239-247). -/
def setCurrentLanguage (s : Session) (lang : Language) : Session :=
  { s with currentLanguage := lang }

/- The mount effect (lines 108-116): greeting turn appended, mood selector
   shown.  Parameterised by the session-start language. -/
def initSession (lang : Language) : Session :=
  { messages := [{ text := translations.greeting lang, sender := "bot", timestamp := "" }],
    currentLanguage := lang, userMood := none, showMoodSelector := true }

/- ---------- session-level event semantics ---------- -/

/- The user-interface events that reach the engine. -/
inductive Event where
  | selectMood (mood ts : String)
  | sendMessage (text ts : String) (r : Nat)
  | setLanguage (lang : Language)

def Event.isSelect : Event → Bool
  | .selectMood _ _ => true
  | _ => false

/- One UI event.  A selectMood event can only fire while the mood selector is
   rendered: the source mounts the mood buttons under
   `{showMoodSelector && ...}` (line 251), so the click handler does not exist
   once the selector is hidden. -/
def step (s : Session) (e : Event) : Session :=
  match e with
  | .selectMood mood ts => if s.showMoodSelector then handleMoodSelection s mood ts else s
  | .sendMessage text ts r => handleSendMessage s text ts r
  | .setLanguage lang => setCurrentLanguage s lang

/- A whole session: the mount effect followed by a sequence of UI events. -/
def run (lang : Language) (es : List Event) : Session :=
  es.foldl step (initSession lang)

/- Case-equivalence of two strings: pointwise equal up to ASCII case. -/
def eqUpToCaseB : List Char → List Char → Bool
  | [], [] => true
  | a :: as, b :: bs => (Char.toLower a == Char.toLower b) && eqUpToCaseB as bs
  | _, _ => false

def EqUpToCase (s t : String) : Prop :=
  eqUpToCaseB s.toList t.toList = true

instance (s t : String) : Decidable (EqUpToCase s t) :=
  inferInstanceAs (Decidable (eqUpToCaseB s.toList t.toList = true))

/- ---------- substring lemmas ---------- -/

theorem hasPrefixCL_spec : ∀ (l k : List Char), hasPrefixCL l k = true ↔ ∃ q, l = k ++ q
  | l, [] => by simp [hasPrefixCL]
  | [], _ :: _ => by simp [hasPrefixCL]
  | a :: as, b :: bs => by
    rw [show hasPrefixCL (a :: as) (b :: bs) = (a == b && hasPrefixCL as bs) from rfl]
    rw [Bool.and_eq_true, beq_iff_eq, hasPrefixCL_spec as bs]
    constructor
    · rintro ⟨rfl, q, rfl⟩
      exact ⟨q, rfl⟩
    · rintro ⟨q, hq⟩
      injection hq with h1 h2
      exact ⟨h1, q, h2⟩

theorem containsCL_spec : ∀ (l k : List Char),
    containsCL l k = true ↔ ∃ p q, l = p ++ (k ++ q)
  | [], k => by
    cases k with
    | nil =>
      constructor
      · intro _
        exact ⟨[], [], rfl⟩
      · intro _
        rfl
    | cons b bs => simp [containsCL]
  | a :: as, k => by
    rw [show containsCL (a :: as) k = (hasPrefixCL (a :: as) k || containsCL as k) from rfl]
    rw [Bool.or_eq_true, hasPrefixCL_spec, containsCL_spec as k]
    constructor
    · rintro (⟨q, hq⟩ | ⟨p, q, rfl⟩)
      · exact ⟨[], q, hq⟩
      · exact ⟨a :: p, q, rfl⟩
    · rintro ⟨p, q, hq⟩
      cases p with
      | nil => exact Or.inl ⟨q, by simpa using hq⟩
      | cons x xs =>
        injection hq with h1 h2
        subst h1
        exact Or.inr ⟨xs, q, h2⟩

theorem containsCL_reverse (l k : List Char) :
    containsCL l.reverse k.reverse = containsCL l k := by
  cases hx : containsCL l k with
  | true =>
    obtain ⟨p, q, rfl⟩ := (containsCL_spec l k).mp hx
    apply (containsCL_spec _ _).mpr
    refine ⟨q.reverse, p.reverse, ?_⟩
    simp
  | false =>
    cases hy : containsCL l.reverse k.reverse with
    | false => rfl
    | true =>
      obtain ⟨p, q, h⟩ := (containsCL_spec _ _).mp hy
      have hl : l = q.reverse ++ (k ++ p.reverse) := by
        have h2 := congrArg List.reverse h
        simpa using h2
      have hx' := (containsCL_spec l k).mpr ⟨q.reverse, p.reverse, hl⟩
      rw [hx] at hx'
      exact Bool.noConfusion hx'

theorem containsCL_dropWhile (k : List Char) (hk : k ≠ [])
    (hw : ∀ c ∈ k, c.isWhitespace = false) :
    ∀ l : List Char, containsCL (l.dropWhile Char.isWhitespace) k = containsCL l k := by
  intro l
  induction l with
  | nil => rfl
  | cons c cs ih =>
    rw [List.dropWhile_cons]
    by_cases hc : c.isWhitespace = true
    · rw [if_pos hc, ih]
      rw [show containsCL (c :: cs) k = (hasPrefixCL (c :: cs) k || containsCL cs k) from rfl]
      cases k with
      | nil => exact absurd rfl hk
      | cons kh kt =>
        have hkh : kh.isWhitespace = false := hw kh (List.mem_cons_self _ _)
        have hne : (c == kh) = false := by
          rw [beq_eq_false_iff_ne]
          intro hEq
          rw [hEq, hkh] at hc
          exact Bool.noConfusion hc
        rw [show hasPrefixCL (c :: cs) (kh :: kt) = (c == kh && hasPrefixCL cs kt) from rfl]
        rw [hne]
        simp
    · rw [if_neg hc]

theorem containsCL_trimList (l k : List Char) (hk : k ≠ [])
    (hw : ∀ c ∈ k, c.isWhitespace = false) :
    containsCL (trimList l) k = containsCL l k := by
  have hkrev : k.reverse ≠ [] := by simpa using hk
  have hwrev : ∀ c ∈ k.reverse, c.isWhitespace = false := by
    intro c hc
    exact hw c (List.mem_reverse.mp hc)
  unfold trimList
  calc containsCL ((l.dropWhile Char.isWhitespace).reverse.dropWhile Char.isWhitespace).reverse k
      = containsCL ((l.dropWhile Char.isWhitespace).reverse.dropWhile Char.isWhitespace).reverse.reverse
          k.reverse := (containsCL_reverse _ k).symm
    _ = containsCL ((l.dropWhile Char.isWhitespace).reverse.dropWhile Char.isWhitespace)
          k.reverse := by rw [List.reverse_reverse]
    _ = containsCL (l.dropWhile Char.isWhitespace).reverse k.reverse :=
          containsCL_dropWhile k.reverse hkrev hwrev _
    _ = containsCL (l.dropWhile Char.isWhitespace) k :=
          containsCL_reverse _ k
    _ = containsCL l k := containsCL_dropWhile k hk hw l

/- Trimming the message cannot change the keyword classification: every
   keyword is non-empty and whitespace-free. -/
theorem matchesDepression_trim (s : String) :
    matchesDepression (jsTrim s) = matchesDepression s := by
  unfold matchesDepression includesStr jsTrim
  rw [show (String.mk (trimList s.toList)).toList = trimList s.toList from rfl]
  rw [containsCL_trimList s.toList "sad".toList (by decide) (by decide),
    containsCL_trimList s.toList "depressed".toList (by decide) (by decide),
    containsCL_trimList s.toList "down".toList (by decide) (by decide),
    containsCL_trimList s.toList "उदास".toList (by decide) (by decide),
    containsCL_trimList s.toList "दुखी".toList (by decide) (by decide),
    containsCL_trimList s.toList "ದುಃಖ".toList (by decide) (by decide)]

theorem matchesAnxiety_trim (s : String) :
    matchesAnxiety (jsTrim s) = matchesAnxiety s := by
  unfold matchesAnxiety includesStr jsTrim
  rw [show (String.mk (trimList s.toList)).toList = trimList s.toList from rfl]
  rw [containsCL_trimList s.toList "anxious".toList (by decide) (by decide),
    containsCL_trimList s.toList "worried".toList (by decide) (by decide),
    containsCL_trimList s.toList "panic".toList (by decide) (by decide),
    containsCL_trimList s.toList "चिंतित".toList (by decide) (by decide),
    containsCL_trimList s.toList "चिंताग्रस्त".toList (by decide) (by decide),
    containsCL_trimList s.toList "ಆತಂಕ".toList (by decide) (by decide)]

theorem matchesStress_trim (s : String) :
    matchesStress (jsTrim s) = matchesStress s := by
  unfold matchesStress includesStr jsTrim
  rw [show (String.mk (trimList s.toList)).toList = trimList s.toList from rfl]
  rw [containsCL_trimList s.toList "stress".toList (by decide) (by decide),
    containsCL_trimList s.toList "overwhelmed".toList (by decide) (by decide),
    containsCL_trimList s.toList "pressure".toList (by decide) (by decide),
    containsCL_trimList s.toList "तनाव".toList (by decide) (by decide),
    containsCL_trimList s.toList "तणाव".toList (by decide) (by decide),
    containsCL_trimList s.toList "ಒತ್ತಡ".toList (by decide) (by decide)]

theorem eqUpToCaseB_map : ∀ (l₁ l₂ : List Char), eqUpToCaseB l₁ l₂ = true →
    l₁.map Char.toLower = l₂.map Char.toLower
  | [], [], _ => rfl
  | [], _ :: _, h => Bool.noConfusion h
  | _ :: _, [], h => Bool.noConfusion h
  | a :: as, b :: bs, h => by
    have h' : (Char.toLower a == Char.toLower b) = true ∧ eqUpToCaseB as bs = true := by
      simpa [eqUpToCaseB, Bool.and_eq_true] using h
    have h1 : Char.toLower a = Char.toLower b := eq_of_beq h'.1
    show Char.toLower a :: as.map Char.toLower = Char.toLower b :: bs.map Char.toLower
    rw [h1, eqUpToCaseB_map as bs h'.2]

/- ---------- engine helper lemmas ---------- -/

theorem randPick_mem (l : List String) (r : Nat) (h : l ≠ []) : randPick l r ∈ l := by
  unfold randPick
  have hlen : 0 < l.length := List.length_pos.mpr h
  have hlt : r % l.length < l.length := Nat.mod_lt _ hlen
  rw [List.getD_eq_getElem?_getD, List.getElem?_eq_getElem hlt]
  simp only [Option.getD_some]
  exact List.getElem_mem hlt

theorem generateBotResponse_text (lang : Language) (msg : String) (r : Nat) (ts : String) :
    (generateBotResponse lang msg r ts).text =
      if matchesDepression (jsToLower msg) then
        randPick (mentalHealthResponses.depression lang) r
      else if matchesAnxiety (jsToLower msg) then
        randPick (mentalHealthResponses.anxiety lang) r
      else if matchesStress (jsToLower msg) then
        randPick (mentalHealthResponses.stress lang) r
      else randPick (genericResponses lang) r := rfl

theorem handleSendMessage_frame (s : Session) (t ts : String) (r : Nat) :
    (handleSendMessage s t ts r).userMood = s.userMood ∧
    (handleSendMessage s t ts r).showMoodSelector = s.showMoodSelector ∧
    (handleSendMessage s t ts r).currentLanguage = s.currentLanguage := by
  by_cases h : jsTrim t = "" <;> simp [handleSendMessage, h]

theorem step_frame_of_selector_false (s : Session) (e : Event)
    (hs : s.showMoodSelector = false) :
    (step s e).showMoodSelector = false ∧ (step s e).userMood = s.userMood := by
  cases e with
  | selectMood mood ts => simp [step, hs]
  | sendMessage t ts r =>
    have h := handleSendMessage_frame s t ts r
    exact ⟨h.2.1.trans hs, h.1⟩
  | setLanguage lang => exact ⟨hs, rfl⟩

theorem foldl_selector_false : ∀ (es : List Event) (s : Session),
    s.showMoodSelector = false → (es.foldl step s).showMoodSelector = false
  | [], _, hs => hs
  | e :: rest, s, hs =>
    foldl_selector_false rest (step s e) (step_frame_of_selector_false s e hs).1

theorem foldl_mood_persists : ∀ (es : List Event) (s : Session) (m : String),
    s.showMoodSelector = false → s.userMood = some m →
    (es.foldl step s).userMood = some m
  | [], _, _, _, hm => hm
  | e :: rest, s, m, hs, hm => by
    have h := step_frame_of_selector_false s e hs
    exact foldl_mood_persists rest (step s e) m h.1 (h.2.trans hm)

theorem foldl_mood_selector_inv : ∀ (es : List Event) (s : Session),
    (s.userMood = none ∨ s.showMoodSelector = false) →
    ((es.foldl step s).userMood = none ∨ (es.foldl step s).showMoodSelector = false)
  | [], _, h => h
  | e :: rest, s, h => by
    apply foldl_mood_selector_inv rest
    cases e with
    | selectMood mood ts =>
      by_cases hs : s.showMoodSelector = true
      · right
        simp [step, hs, handleMoodSelection]
      · right
        have hs' : s.showMoodSelector = false := by
          cases hb : s.showMoodSelector
          · rfl
          · exact absurd hb hs
        simp [step, hs']
    | sendMessage t ts r =>
      have hf := handleSendMessage_frame s t ts r
      cases h with
      | inl h0 => exact Or.inl (hf.1.trans h0)
      | inr h0 => exact Or.inr (hf.2.1.trans h0)
    | setLanguage lang => exact h

theorem foldl_selector_true_of_no_select : ∀ (es : List Event) (s : Session),
    s.showMoodSelector = true → (∀ e ∈ es, e.isSelect = false) →
    (es.foldl step s).showMoodSelector = true
  | [], _, hs, _ => hs
  | e :: rest, s, hs, hall => by
    have hstep : (step s e).showMoodSelector = true := by
      cases e with
      | selectMood mood ts => exact Bool.noConfusion (hall _ (List.mem_cons_self _ _))
      | sendMessage t ts r => exact (handleSendMessage_frame s t ts r).2.1.trans hs
      | setLanguage lang => exact hs
    exact foldl_selector_true_of_no_select rest (step s e) hstep
      (fun e' he' => hall e' (List.mem_cons_of_mem _ he'))

theorem getLast_append_two (l : List Turn) (u b : Turn) :
    (l ++ [u, b]).getLast? = some b := by
  rw [show l ++ [u, b] = (l ++ [u]) ++ [b] by simp]
  exact List.getLast?_concat _

theorem step_messages_shape (s : Session) (e : Event) :
    ∃ app, (step s e).messages = s.messages ++ app ∧
      (app = [] ∨ ∃ u b, app = [u, b] ∧ u.sender = "user" ∧ b.sender = "bot") := by
  cases e with
  | selectMood mood ts =>
    by_cases hs : s.showMoodSelector = true
    · refine ⟨[{ text := (translations.moodLabels s.currentLanguage mood).getD "undefined"
          ++ " " ++ getMoodEmoji mood, sender := "user", timestamp := ts },
        generateMoodResponse s.currentLanguage mood ts], ?_, Or.inr ⟨_, _, rfl, rfl, rfl⟩⟩
      simp [step, hs, handleMoodSelection]
    · have hs' : s.showMoodSelector = false := by
        cases hb : s.showMoodSelector
        · rfl
        · exact absurd hb hs
      refine ⟨[], ?_, Or.inl rfl⟩
      simp [step, hs']
  | sendMessage t ts r =>
    by_cases ht : jsTrim t = ""
    · refine ⟨[], ?_, Or.inl rfl⟩
      simp [step, handleSendMessage, ht]
    · refine ⟨[{ text := t, sender := "user", timestamp := ts },
        generateBotResponse s.currentLanguage t r ts], ?_, Or.inr ⟨_, _, rfl, rfl, rfl⟩⟩
      simp [step, handleSendMessage, ht]
  | setLanguage lang =>
    exact ⟨[], by simp [step, setCurrentLanguage], Or.inl rfl⟩

theorem foldl_odd_lastBot : ∀ (es : List Event) (s : Session),
    s.messages.length % 2 = 1 →
    s.messages.getLast?.map Turn.sender = some "bot" →
    ((es.foldl step s).messages.length % 2 = 1 ∧
      (es.foldl step s).messages.getLast?.map Turn.sender = some "bot")
  | [], _, h1, h2 => ⟨h1, h2⟩
  | e :: rest, s, h1, h2 => by
    obtain ⟨app, happ, hshape⟩ := step_messages_shape s e
    rcases hshape with rfl | ⟨u, b, rfl, _, hb⟩
    · rw [List.append_nil] at happ
      exact foldl_odd_lastBot rest (step s e)
        (by rw [happ]; exact h1) (by rw [happ]; exact h2)
    · refine foldl_odd_lastBot rest (step s e) ?_ ?_
      · rw [happ, List.length_append]
        simp only [List.length_cons, List.length_nil]
        omega
      · rw [happ, getLast_append_two, Option.map_some', hb]

/- ---------- the claims ---------- -/

/-- Claim C1: for every MoodLabel in the closed set and every session (hence
every current language), selectMood appends exactly two Turns, user then bot;
the bot Turn's text is the deterministic response for (mood, language) — the
first variant of the depression list for sad, of the anxiety list for
anxious, of the stress list for angry, and the single fixed per-language text
for happy, calm and confused; the text does not depend on the ambient
timestamp and involves no random draw, so repeated calls with the same mood
and language produce identical output text. -/
theorem C1_selectMood_deterministic (s : Session) (m ts tsx : String)
    (_hm : m ∈ moodLabelList) :
    (∃ u b, (handleMoodSelection s m ts).messages = s.messages ++ [u, b] ∧
      u.sender = "user" ∧ b.sender = "bot" ∧
      b.text = (generateMoodResponse s.currentLanguage m ts).text) ∧
    (m = "sad" → (generateMoodResponse s.currentLanguage m ts).text =
      (mentalHealthResponses.depression s.currentLanguage).headD "") ∧
    (m = "anxious" → (generateMoodResponse s.currentLanguage m ts).text =
      (mentalHealthResponses.anxiety s.currentLanguage).headD "") ∧
    (m = "angry" → (generateMoodResponse s.currentLanguage m ts).text =
      (mentalHealthResponses.stress s.currentLanguage).headD "") ∧
    (m = "happy" → (generateMoodResponse s.currentLanguage m ts).text =
      happyResponse s.currentLanguage) ∧
    (m = "calm" → (generateMoodResponse s.currentLanguage m ts).text =
      calmResponse s.currentLanguage) ∧
    (m = "confused" → (generateMoodResponse s.currentLanguage m ts).text =
      defaultMoodResponse s.currentLanguage) ∧
    (generateMoodResponse s.currentLanguage m ts).text =
      (generateMoodResponse s.currentLanguage m tsx).text := by
  refine ⟨⟨_, _, rfl, rfl, rfl, rfl⟩, ?_, ?_, ?_, ?_, ?_, ?_, rfl⟩
  all_goals intro h
  all_goals subst h
  all_goals rfl

theorem C1_selectMood_deterministic_witness :
    "sad" ∈ moodLabelList ∧
    ((∃ u b, (handleMoodSelection (initSession .english) "sad" "t1").messages =
        (initSession .english).messages ++ [u, b] ∧
        u.sender = "user" ∧ b.sender = "bot" ∧
        b.text = (generateMoodResponse .english "sad" "t1").text) ∧
      ("sad" = "sad" → (generateMoodResponse .english "sad" "t1").text =
        (mentalHealthResponses.depression .english).headD "") ∧
      ("sad" = "anxious" → (generateMoodResponse .english "sad" "t1").text =
        (mentalHealthResponses.anxiety .english).headD "") ∧
      ("sad" = "angry" → (generateMoodResponse .english "sad" "t1").text =
        (mentalHealthResponses.stress .english).headD "") ∧
      ("sad" = "happy" → (generateMoodResponse .english "sad" "t1").text =
        happyResponse .english) ∧
      ("sad" = "calm" → (generateMoodResponse .english "sad" "t1").text =
        calmResponse .english) ∧
      ("sad" = "confused" → (generateMoodResponse .english "sad" "t1").text =
        defaultMoodResponse .english) ∧
      (generateMoodResponse .english "sad" "t1").text =
        (generateMoodResponse .english "sad" "t2").text) :=
  ⟨by decide,
    C1_selectMood_deterministic (initSession .english) "sad" "t1" "t2" (by decide)⟩

/-- Claim C2: the lowercased text is classified against the union keyword
lists of the three categories in the fixed priority order depression
(low-mood), then anxiety, then stress; the first category with a substring
match wins — in particular any text with a depression keyword is answered
from the depression pool no matter what else it contains — and when nothing
matches, the reply is drawn from the generic-fallback list of the current
language (for every value of the random oracle). -/
theorem C2_keyword_priority (lang : Language) (msg : String) (r : Nat) (ts : String) :
    (matchesDepression (jsToLower msg) = true →
      (generateBotResponse lang msg r ts).text ∈ mentalHealthResponses.depression lang) ∧
    (matchesDepression (jsToLower msg) = false → matchesAnxiety (jsToLower msg) = true →
      (generateBotResponse lang msg r ts).text ∈ mentalHealthResponses.anxiety lang) ∧
    (matchesDepression (jsToLower msg) = false → matchesAnxiety (jsToLower msg) = false →
      matchesStress (jsToLower msg) = true →
      (generateBotResponse lang msg r ts).text ∈ mentalHealthResponses.stress lang) ∧
    (matchesDepression (jsToLower msg) = false → matchesAnxiety (jsToLower msg) = false →
      matchesStress (jsToLower msg) = false →
      (generateBotResponse lang msg r ts).text ∈ genericResponses lang) := by
  refine ⟨?_, ?_, ?_, ?_⟩
  · intro h1
    rw [generateBotResponse_text, if_pos h1]
    exact randPick_mem _ r (by cases lang <;> decide)
  · intro h1 h2
    have h1' : ¬ matchesDepression (jsToLower msg) = true := by
      rw [h1]
      decide
    rw [generateBotResponse_text, if_neg h1', if_pos h2]
    exact randPick_mem _ r (by cases lang <;> decide)
  · intro h1 h2 h3
    have h1' : ¬ matchesDepression (jsToLower msg) = true := by
      rw [h1]
      decide
    have h2' : ¬ matchesAnxiety (jsToLower msg) = true := by
      rw [h2]
      decide
    rw [generateBotResponse_text, if_neg h1', if_neg h2', if_pos h3]
    exact randPick_mem _ r (by cases lang <;> decide)
  · intro h1 h2 h3
    have h1' : ¬ matchesDepression (jsToLower msg) = true := by
      rw [h1]
      decide
    have h2' : ¬ matchesAnxiety (jsToLower msg) = true := by
      rw [h2]
      decide
    have h3' : ¬ matchesStress (jsToLower msg) = true := by
      rw [h3]
      decide
    rw [generateBotResponse_text, if_neg h1', if_neg h2', if_neg h3']
    exact randPick_mem _ r (by cases lang <;> decide)

theorem C2_keyword_priority_witness :
    matchesDepression (jsToLower "I feel sad and anxious") = true ∧
    matchesAnxiety (jsToLower "I feel sad and anxious") = true ∧
    (generateBotResponse .english "I feel sad and anxious" 0 "").text ∈
      mentalHealthResponses.depression .english :=
  ⟨by decide, by decide,
    (C2_keyword_priority .english "I feel sad and anxious" 0 "").1 (by decide)⟩

/-- Claim C3: first mood selection wins.  In the session semantics (where a
selectMood event only fires while the mood selector is rendered, mirroring
the conditional render of the mood buttons), once the recorded mood is some
m after any event sequence, it is still m after any further events — a later
selectMood with a different mood does not change it, because the selector is
never shown again. -/
theorem C3_first_mood_wins (lang : Language) (es tail : List Event) (m : String)
    (h : (run lang es).userMood = some m) :
    (run lang (es ++ tail)).userMood = some m := by
  have hinv := foldl_mood_selector_inv es (initSession lang) (Or.inl rfl)
  have h' : (es.foldl step (initSession lang)).userMood = some m := h
  have hsel : (es.foldl step (initSession lang)).showMoodSelector = false := by
    cases hinv with
    | inl h0 =>
      rw [h0] at h'
      exact Option.noConfusion h'
    | inr h0 => exact h0
  show ((es ++ tail).foldl step (initSession lang)).userMood = some m
  rw [List.foldl_append]
  exact foldl_mood_persists tail _ m hsel h'

theorem C3_first_mood_wins_witness :
    (run .english [.selectMood "sad" "t1"]).userMood = some "sad" ∧
    (run .english ([.selectMood "sad" "t1"] ++ [.selectMood "happy" "t2"])).userMood =
      some "sad" :=
  ⟨rfl, C3_first_mood_wins .english [.selectMood "sad" "t1"] [.selectMood "happy" "t2"]
    "sad" rfl⟩

/-- Claim C4 counterexample: contrary to the claim, an out-of-set mood does
not fail fast.  At the concrete mood "elated" (not in the closed set) the
operation succeeds and appends two Turns built from the fallback texts: the
default glyph and the generic supportive acknowledgment. -/
theorem C4_failfast_counterexample :
    "elated" ∉ moodLabelList ∧
    (handleMoodSelection (initSession .english) "elated" "").messages =
      (initSession .english).messages ++
        [{ text := "undefined 😐", sender := "user", timestamp := "" },
         { text := defaultMoodResponse .english, sender := "bot", timestamp := "" }] :=
  ⟨by decide, rfl⟩

/-- Claim C4 (amended): when a MoodLabel outside the closed set is passed to
selectMood, the operation does not fail fast; it degrades silently, appending
a user Turn that renders the missing label as "undefined" with the default
glyph, and a bot Turn with the generic supportive acknowledgment of the
current language. -/
theorem C4_silent_fallback (s : Session) (mood ts : String)
    (h : mood ∉ moodLabelList) :
    (handleMoodSelection s mood ts).messages =
      s.messages ++
        [{ text := "undefined 😐", sender := "user", timestamp := ts },
         { text := defaultMoodResponse s.currentLanguage, sender := "bot", timestamp := ts }] := by
  have h6 : ¬ mood = "happy" ∧ ¬ mood = "sad" ∧ ¬ mood = "anxious" ∧ ¬ mood = "angry" ∧
      ¬ mood = "calm" ∧ ¬ mood = "confused" := by
    simp only [moodLabelList, List.mem_cons, List.not_mem_nil, or_false] at h
    push_neg at h
    exact h
  obtain ⟨h1, h2, h3, h4, h5, hc⟩ := h6
  simp only [handleMoodSelection, translations.moodLabels, getMoodEmoji, emojiMap,
    generateMoodResponse, if_neg h1, if_neg h2, if_neg h3, if_neg h4, if_neg h5, if_neg hc,
    Option.getD_none]
  rfl

theorem C4_silent_fallback_witness :
    "excited" ∉ moodLabelList ∧
    (handleMoodSelection (initSession .hindi) "excited" "t").messages =
      (initSession .hindi).messages ++
        [{ text := "undefined 😐", sender := "user", timestamp := "t" },
         { text := defaultMoodResponse .hindi, sender := "bot", timestamp := "t" }] :=
  ⟨by decide, C4_silent_fallback (initSession .hindi) "excited" "t" (by decide)⟩

/-- Claim C5: an input whose trimmed form is empty makes sendMessage a no-op:
the session — transcript, current language, recorded mood and the mood-prompt
flag — is returned unchanged and no Turn is produced. -/
theorem C5_whitespace_noop (s : Session) (text ts : String) (r : Nat)
    (h : jsTrim text = "") :
    handleSendMessage s text ts r = s := by
  unfold handleSendMessage
  rw [if_pos h]

theorem C5_whitespace_noop_witness :
    jsTrim "   " = "" ∧
    handleSendMessage (initSession .english) "   " "" 0 = initSession .english :=
  ⟨by decide, C5_whitespace_noop (initSession .english) "   " "" 0 (by decide)⟩

/-- Claim C6: the mood prompt is pending (the selector shown) immediately
after session start; it stays shown while no selectMood event occurs; it is
hidden immediately after any selectMood call; and once hidden it never comes
back for the rest of the session. -/
theorem C6_moodPromptPending (lang : Language) (s : Session) (mood ts : String)
    (es₁ es₂ tail : List Event) :
    (initSession lang).showMoodSelector = true ∧
    (handleMoodSelection s mood ts).showMoodSelector = false ∧
    ((∀ e ∈ es₁, e.isSelect = false) → (run lang es₁).showMoodSelector = true) ∧
    ((run lang es₂).showMoodSelector = false →
      (run lang (es₂ ++ tail)).showMoodSelector = false) := by
  refine ⟨rfl, rfl, ?_, ?_⟩
  · intro hall
    exact foldl_selector_true_of_no_select es₁ (initSession lang) rfl hall
  · intro hfalse
    show ((es₂ ++ tail).foldl step (initSession lang)).showMoodSelector = false
    rw [List.foldl_append]
    exact foldl_selector_false tail _ hfalse

theorem C6_moodPromptPending_witness :
    (initSession .english).showMoodSelector = true ∧
    (handleMoodSelection (initSession .english) "sad" "t").showMoodSelector = false ∧
    (run .english [.sendMessage "hello" "t" 0]).showMoodSelector = true ∧
    (run .english ([.selectMood "sad" "t"] ++ [.setLanguage .hindi])).showMoodSelector =
      false :=
  let h := C6_moodPromptPending .english (initSession .english) "sad" "t"
    [.sendMessage "hello" "t" 0] [.selectMood "sad" "t"] [.setLanguage .hindi]
  ⟨h.1, h.2.1, h.2.2.1 (by decide), h.2.2.2 (by rfl)⟩

/-- Claim C7: setLanguage updates only the current language: the transcript
(length and content), the recorded mood and the mood-prompt flag are all
unchanged, and the operation always succeeds for any Language in the closed
set (it is a total function). -/
theorem C7_setLanguage_frame (s : Session) (lang : Language) :
    (setCurrentLanguage s lang).currentLanguage = lang ∧
    (setCurrentLanguage s lang).messages = s.messages ∧
    (setCurrentLanguage s lang).userMood = s.userMood ∧
    (setCurrentLanguage s lang).showMoodSelector = s.showMoodSelector :=
  ⟨rfl, rfl, rfl, rfl⟩

/-- Claim C8: for non-whitespace input, sendMessage appends the user Turn
with the verbatim untrimmed rawText (leading and trailing whitespace
preserved in the transcript), while trimming gates whether the operation
runs; trimming the text cannot change the keyword classification either,
since every keyword is non-empty and whitespace-free. -/
theorem C8_verbatim_text (s : Session) (text ts : String) (r : Nat)
    (h : ¬ jsTrim text = "") :
    (handleSendMessage s text ts r).messages =
      s.messages ++ [{ text := text, sender := "user", timestamp := ts },
        generateBotResponse s.currentLanguage text r ts] ∧
    matchesDepression (jsTrim (jsToLower text)) = matchesDepression (jsToLower text) ∧
    matchesAnxiety (jsTrim (jsToLower text)) = matchesAnxiety (jsToLower text) ∧
    matchesStress (jsTrim (jsToLower text)) = matchesStress (jsToLower text) := by
  refine ⟨?_, matchesDepression_trim _, matchesAnxiety_trim _, matchesStress_trim _⟩
  unfold handleSendMessage
  rw [if_neg h]

theorem C8_verbatim_text_witness :
    ¬ jsTrim "  hello  " = "" ∧
    ((handleSendMessage (initSession .english) "  hello  " "ts" 7).messages =
        (initSession .english).messages ++
          [{ text := "  hello  ", sender := "user", timestamp := "ts" },
            generateBotResponse .english "  hello  " 7 "ts"] ∧
      matchesDepression (jsTrim (jsToLower "  hello  ")) =
        matchesDepression (jsToLower "  hello  ") ∧
      matchesAnxiety (jsTrim (jsToLower "  hello  ")) =
        matchesAnxiety (jsToLower "  hello  ") ∧
      matchesStress (jsTrim (jsToLower "  hello  ")) =
        matchesStress (jsToLower "  hello  ")) :=
  ⟨by decide, C8_verbatim_text (initSession .english) "  hello  " "ts" 7 (by decide)⟩

/-- Claim C9: classification is invariant under ASCII letter case — two input
texts that agree pointwise up to ASCII case produce exactly the same bot
response (same category, same chosen variant) for every language and random
draw. -/
theorem C9_case_insensitive (lang : Language) (s t : String) (r : Nat) (ts : String)
    (h : EqUpToCase s t) :
    generateBotResponse lang s r ts = generateBotResponse lang t r ts := by
  have hlow : jsToLower s = jsToLower t :=
    congrArg String.mk (eqUpToCaseB_map s.toList t.toList h)
  unfold generateBotResponse
  rw [hlow]

theorem C9_case_insensitive_witness :
    EqUpToCase "SAD" "sad" ∧
    generateBotResponse .english "SAD" 0 "" = generateBotResponse .english "sad" 0 "" :=
  ⟨by decide, C9_case_insensitive .english "SAD" "sad" 0 "" (by decide)⟩

/-- Claim C10: the transcript is append-only and grows in user-then-bot
pairs: the fresh session holds exactly one bot (greeting) Turn; every event
extends the transcript with either zero Turns or exactly a user Turn followed
by a bot Turn, never touching existing Turns; consequently after any event
sequence the transcript length is odd and the last Turn is a bot Turn. -/
theorem C10_transcript_shape (lang : Language) (es : List Event) (s : Session) (e : Event) :
    (run lang []).messages.map Turn.sender = ["bot"] ∧
    (∃ app, (step s e).messages = s.messages ++ app ∧
      (app = [] ∨ ∃ u b, app = [u, b] ∧ u.sender = "user" ∧ b.sender = "bot")) ∧
    (run lang es).messages.length % 2 = 1 ∧
    (run lang es).messages.getLast?.map Turn.sender = some "bot" := by
  refine ⟨rfl, step_messages_shape s e, ?_, ?_⟩
  · exact (foldl_odd_lastBot es (initSession lang) rfl rfl).1
  · exact (foldl_odd_lastBot es (initSession lang) rfl rfl).2

end Chatbox
